import Mathlib

/-!
Verification of the authentication and credential-lifecycle subsystem.

This file gives a shallow embedding of the server code: the scrypt-based
password hashing and verification (hashPassword / comparePasswords), the
user store operations (DatabaseStorage), the passport local and Google
strategies, and the register / login / forgot-password / reset-password /
current-user HTTP handlers.

Modelling conventions:
  * The key-derivation function scrypt is an explicit parameter
    kdf : String -> String -> List Nat (password, salt -> derived key
    bytes); the source always calls it with keylen 64.
  * Random values (salts, tokens, the discarded plaintext of the Google
    path) are explicit parameters.
  * Timestamps are Nat milliseconds; the source stores ISO strings and
    compares Date objects, which compare by their millisecond value.
  * JavaScript exceptions are modelled with Except String: a thrown
    error is Except.error, a normal return is Except.ok.
  * The database is a List User; each storage method is one function, so
    a single UPDATE statement is a single store transition.
-/

namespace Auth

/-- One lowercase hex digit, as produced by Buffer.toString with hex
encoding in Node. -/
def hexDigitChar (n : Nat) : Char :=
  if n < 10 then Char.ofNat (48 + n) else Char.ofNat (87 + n)

/-- Bytes to lowercase hex characters, two digits per byte
(Buffer.toString with hex encoding). -/
def hexEncodeL : List Nat → List Char
  | [] => []
  | b :: rest => hexDigitChar (b % 256 / 16) :: hexDigitChar (b % 16) :: hexEncodeL rest

/-- Value of one hex digit character, accepting both cases, none
otherwise. -/
def hexVal (c : Char) : Option Nat :=
  if 48 ≤ c.toNat ∧ c.toNat ≤ 57 then some (c.toNat - 48)
  else if 97 ≤ c.toNat ∧ c.toNat ≤ 102 then some (c.toNat - 87)
  else if 65 ≤ c.toNat ∧ c.toNat ≤ 70 then some (c.toNat - 55)
  else none

/-- Hex characters to bytes, mirroring Buffer.from with hex encoding in
Node: full two-digit pairs are decoded from the left, and decoding stops
at the first invalid digit or at an odd trailing digit. -/
def hexDecodeL : List Char → List Nat
  | c1 :: c2 :: rest =>
    match hexVal c1, hexVal c2 with
    | some h, some l => (16 * h + l) :: hexDecodeL rest
    | _, _ => []
  | _ => []

/-- JavaScript String.prototype.split with separator ".", on the
character list of the string: "" splits to [""], "a.b" to ["a", "b"],
a string with no dot to a one-element list. -/
def splitOnDot : List Char → List (List Char)
  | [] => [[]]
  | c :: rest =>
    if c = '.' then [] :: splitOnDot rest
    else
      match splitOnDot rest with
      | [] => [[c]]
      | h :: t => (c :: h) :: t

/-- Node crypto.timingSafeEqual: throws a RangeError when the two
buffers differ in length, otherwise returns whether they are equal. -/
def timingSafeEqual (a b : List Nat) : Except String Bool :=
  if a.length = b.length then .ok (a == b)
  else .error "RangeError: Input buffers must have the same byte length"

/-- Error thrown by crypto.scrypt when the salt argument is undefined,
which happens when the stored record has no dot separator. -/
def scryptSaltTypeError : String :=
  "TypeError: The salt argument must be of type string or an instance of ArrayBuffer, Buffer, TypedArray, or DataView. Received undefined"

/-- hashPassword from the auth module: derive 64 bytes from
(password, salt) with scrypt and return derivedKeyHex ++ "." ++ salt.
The fresh random salt (16 random bytes as hex in the source) is an
explicit parameter. -/
def hashPassword (kdf : String → String → List Nat) (salt : String) (password : String) :
    String :=
  String.mk (hexEncodeL (kdf password salt)) ++ "." ++ salt

/-- comparePasswords from the auth module:
const [hashed, salt] = stored.split("."); hashedBuf = Buffer.from(hashed, "hex");
suppliedBuf = scrypt(supplied, salt, 64); timingSafeEqual(hashedBuf, suppliedBuf).
When the record has no dot, salt is undefined and scrypt throws; when the
decoded buffer length differs from 64, timingSafeEqual throws. -/
def comparePasswords (kdf : String → String → List Nat) (supplied stored : String) :
    Except String Bool :=
  match splitOnDot stored.toList with
  | [] => .error "unreachable: split never returns an empty array"
  | [_] => .error scryptSaltTypeError
  | hashed :: salt :: _ =>
    let hashedBuf := hexDecodeL hashed
    let suppliedBuf := kdf supplied (String.mk salt)
    timingSafeEqual hashedBuf suppliedBuf

/-- One row of the users table (shared schema): serial id, unique email,
password hash record, creation timestamp, is_google_user flag, and the
nullable reset token columns. Expiry is in milliseconds. -/
structure User where
  id : Nat
  email : String
  password : String
  createdAt : String
  isGoogleUser : Bool
  resetToken : Option String
  resetTokenExpiry : Option Nat
  deriving DecidableEq, Repr

/-- Payload accepted by DatabaseStorage.createUser (insertUserSchema
output): email and the already-hashed password. -/
structure InsertUser where
  email : String
  password : String
  deriving DecidableEq, Repr

/-- Password rule of the shared schema: at least 8 characters, at least
one uppercase letter, one lowercase letter, one digit and one character
outside A-Za-z0-9. -/
def validPassword (p : String) : Bool :=
  decide (8 ≤ p.length)
    && p.toList.any Char.isUpper
    && p.toList.any Char.isLower
    && p.toList.any Char.isDigit
    && p.toList.any (fun c => !c.isAlphanum)

/-- DatabaseStorage.getUser: select the row whose id equals the given
id. -/
def getUser (store : List User) (id : Nat) : Option User :=
  store.find? (fun u => u.id == id)

/-- DatabaseStorage.getUserByEmail: select the row whose email column
equals the given email exactly (SQL eq, no case normalization). -/
def getUserByEmail (store : List User) (email : String) : Option User :=
  store.find? (fun u => u.email == email)

/-- DatabaseStorage.getUserByResetToken: select the row whose
reset_token column equals the given token (a NULL column never
matches). -/
def getUserByResetToken (store : List User) (token : String) : Option User :=
  store.find? (fun u => u.resetToken == some token)

/-- Serial primary key generation: one more than the largest id in the
table. -/
def nextId (store : List User) : Nat :=
  (store.map (fun u => u.id)).foldr max 0 + 1

/-- DatabaseStorage.createUser: insert the given email and password hash
with a fresh serial id, the current timestamp, and isGoogleUser hardcoded
to false; reset token columns default to NULL. Returns the inserted row
and the new table. -/
def createUser (store : List User) (iu : InsertUser) (createdAt : String) :
    User × List User :=
  let u : User :=
    { id := nextId store, email := iu.email, password := iu.password,
      createdAt := createdAt, isGoogleUser := false,
      resetToken := none, resetTokenExpiry := none }
  (u, store ++ [u])

/-- DatabaseStorage.setResetToken: one UPDATE setting reset_token and
reset_token_expiry on the row with the given id. -/
def setResetToken (store : List User) (uid : Nat) (token : String) (expiry : Nat) :
    List User :=
  store.map (fun u =>
    if u.id = uid then { u with resetToken := some token, resetTokenExpiry := some expiry }
    else u)

/-- DatabaseStorage.updatePassword: ONE UPDATE statement setting the new
password hash and clearing both reset token columns on the row with the
given id — the hash replacement and the token clearing are a single
store transition. -/
def updatePassword (store : List User) (uid : Nat) (hashed : String) : List User :=
  store.map (fun u =>
    if u.id = uid then
      { u with password := hashed, resetToken := none, resetTokenExpiry := none }
    else u)

/-- Outcome of the passport local strategy verify callback:
done(null, user) is success, done(null, false, message) is failure, and
done(error) — an exception from the try block — is error. -/
inductive AuthOutcome where
  | success (u : User)
  | failure (message : String)
  | error (e : String)
  deriving DecidableEq, Repr

/-- Local strategy verify callback: look the identity up by the
submitted email exactly as given (storage.getUserByEmail); if absent, or
if comparePasswords returns false, fail with the one generic message;
a thrown comparison error reaches done(error). The short-circuit of
the source means comparePasswords is not called when no user was
found. -/
def localAuthenticate (kdf : String → String → List Nat) (store : List User)
    (email password : String) : AuthOutcome :=
  match getUserByEmail store email with
  | none => .failure "Invalid email or password"
  | some u =>
    match comparePasswords kdf password u.password with
    | .error e => .error e
    | .ok true => .success u
    | .ok false => .failure "Invalid email or password"

/-- Google strategy verify callback: fail when the profile carries no
email; otherwise look the identity up by email and return it, or create
a new one via storage.createUser with a hash of a random discarded
plaintext. The random plaintext (32 random bytes as hex in the source)
and the hashing salt are explicit parameters. Returns the identity and
the possibly-extended store. -/
def googleVerify (kdf : String → String → List Nat) (salt randomPlain createdAt : String)
    (store : List User) (profileEmail : Option String) :
    Except String (User × List User) :=
  match profileEmail with
  | none => .error "No email provided from Google"
  | some email =>
    match getUserByEmail store email with
    | some u => .ok (u, store)
    | none =>
      let created := createUser store ⟨email, hashPassword kdf salt randomPlain⟩ createdAt
      .ok created

/-- Response of the forgot-password handler: both branches answer 200
with the same message field, but the registered branch additionally
carries the debug object holding the reset link (the source comment
says to remove it in production). -/
structure ForgotResponse where
  status : Nat
  message : String
  debug : Option String
  deriving DecidableEq, Repr

/-- Reset link built by the forgot-password handler. -/
def resetLinkFor (protocol host token : String) : String :=
  protocol ++ "://" ++ host ++ "/auth/reset-password?token=" ++ token

/-- The shared acknowledgment message of the forgot-password handler. -/
def forgotAck : String :=
  "If an account exists with that email, a password reset link will be sent."

/-- The /api/forgot-password handler after a successful parse of the
email field: unknown email answers 200 with the bare acknowledgment and
touches nothing; known email stores a fresh token expiring one hour
from now, then answers 200 with the acknowledgment plus the debug reset
link. Email delivery failure only logs and does not change the
response. The fresh random token is an explicit parameter. -/
def forgotPassword (store : List User) (email token : String) (now : Nat)
    (protocol host : String) : ForgotResponse × List User :=
  match getUserByEmail store email with
  | none => ({ status := 200, message := forgotAck, debug := none }, store)
  | some u =>
    let expiry := now + 3600000
    let store2 := setResetToken store u.id token expiry
    let link := resetLinkFor protocol host token
    ({ status := 200, message := forgotAck, debug := some link }, store2)

/-- Response of the reset-password handler: 200 with the success
message, or 400 with an error message. -/
inductive ConfirmResponse where
  | ok200 (message : String)
  | bad400 (message : String)
  deriving DecidableEq, Repr

/-- The /api/reset-password handler: parse (token, password) against
updatePasswordSchema — a weak password throws and is answered 400;
look the identity up by token, answering 400 "Invalid or expired reset
token" when none holds it; answer 400 "Reset token has expired" when
the stored expiry is before now (a NULL expiry reads as epoch 0, as
new Date(null) does); otherwise hash the new password and apply the one
updatePassword UPDATE that both replaces the hash and clears the token
columns, answering 200. -/
def confirmReset (kdf : String → String → List Nat) (salt : String) (store : List User)
    (token password : String) (now : Nat) : ConfirmResponse × List User :=
  if !validPassword password then
    (.bad400 "invalid input", store)
  else
    match getUserByResetToken store token with
    | none => (.bad400 "Invalid or expired reset token", store)
    | some user =>
      let expiry := user.resetTokenExpiry.getD 0
      if expiry < now then (.bad400 "Reset token has expired", store)
      else
        let hashed := hashPassword kdf salt password
        (.ok200 "Password updated successfully", updatePassword store user.id hashed)

/-- Response of the register handler: 201 with the created row as the
JSON body — the source passes the full user object, password column
included, to res.json — or 400 with a message. A session holding the
new user id is established before the 201 is sent. -/
inductive RegisterResponse where
  | created201 (body : User)
  | bad400 (message : String)
  deriving DecidableEq, Repr

/-- The /api/register handler: validate against insertUserSchema (the
password rule lives in the shared schema; a failure is answered 400);
reject an already-registered email with 400; otherwise hash the
password, insert the row, log the new user in (req.login) and answer
201 with the full row. Returns the response, the new store, and the
session content (the serialized user id) after the call. -/
def register (kdf : String → String → List Nat) (salt createdAt : String)
    (store : List User) (email password : String) :
    RegisterResponse × List User × Option Nat :=
  if !validPassword password then
    (.bad400 "invalid input", store, none)
  else
    match getUserByEmail store email with
    | some _ => (.bad400 "Email already registered", store, none)
    | none =>
      let created := createUser store ⟨email, hashPassword kdf salt password⟩ createdAt
      (.created201 created.1, created.2, some created.1.id)

/-- Response of the current-user endpoint: 200 with the user row (the
source passes req.user, password column included, to res.json) or a
bare 401. -/
inductive UserResponse where
  | ok200 (body : User)
  | unauthorized401
  deriving DecidableEq, Repr

/-- The /api/user handler together with passport session restoration:
the session stores only the user id; deserialization re-fetches the row
by id, and a session whose id no longer resolves is anonymous, answered
401; an authenticated request is answered with the full row. -/
def currentUser (store : List User) (session : Option Nat) : UserResponse :=
  match session with
  | none => .unauthorized401
  | some uid =>
    match getUser store uid with
    | none => .unauthorized401
    | some u => .ok200 u

/-- Concrete stand-in key-derivation function used to evaluate the model
at concrete inputs: bytes of password followed by salt. Deterministic in
(password, salt) like scrypt, with outputs of equal length for
plaintexts of equal length. -/
def demoKdf (p s : String) : List Nat :=
  (p ++ s).toList.map (fun c => c.toNat % 256)

/-- Sample stored row holding an outstanding reset token expiring at
millisecond 1000. -/
def sampleUser : User :=
  { id := 1, email := "a@x.com", password := hashPassword demoKdf "xy" "Pw1!aaaa",
    createdAt := "", isGoogleUser := false,
    resetToken := some "tok", resetTokenExpiry := some 1000 }

theorem hexVal_hexDigitChar : ∀ n, n < 16 → hexVal (hexDigitChar n) = some n := by decide

theorem hexDigitChar_ne_dot : ∀ n, n < 16 → hexDigitChar n ≠ '.' := by decide

theorem hexDecodeL_hexEncodeL (bs : List Nat) (hb : ∀ b ∈ bs, b < 256) :
    hexDecodeL (hexEncodeL bs) = bs := by
  induction bs with
  | nil => rfl
  | cons b rest ih =>
    have hblt : b < 256 := hb b (List.mem_cons_self b rest)
    have h1 : b % 256 / 16 < 16 := by omega
    have h2 : b % 16 < 16 := by omega
    simp only [hexEncodeL, hexDecodeL, hexVal_hexDigitChar _ h1, hexVal_hexDigitChar _ h2]
    have : 16 * (b % 256 / 16) + b % 16 = b := by omega
    rw [this, ih (fun x hx => hb x (List.mem_cons_of_mem b hx))]

theorem dot_not_mem_hexEncodeL (bs : List Nat) : '.' ∉ hexEncodeL bs := by
  induction bs with
  | nil => simp [hexEncodeL]
  | cons b rest ih =>
    have h1 : b % 256 / 16 < 16 := by omega
    have h2 : b % 16 < 16 := by omega
    simp only [hexEncodeL, List.mem_cons, not_or]
    exact ⟨fun h => hexDigitChar_ne_dot _ h1 h.symm, fun h => hexDigitChar_ne_dot _ h2 h.symm, ih⟩

theorem splitOnDot_no_dot (l : List Char) (h : '.' ∉ l) : splitOnDot l = [l] := by
  induction l with
  | nil => rfl
  | cons c rest ih =>
    have hc : ¬ c = '.' := fun hc => h (hc ▸ List.mem_cons_self c rest)
    simp only [splitOnDot, if_neg hc, ih (fun hm => h (List.mem_cons_of_mem c hm))]

theorem splitOnDot_append_dot (a b : List Char) (h : '.' ∉ a) :
    splitOnDot (a ++ '.' :: b) = a :: splitOnDot b := by
  induction a with
  | nil => simp [splitOnDot]
  | cons c rest ih =>
    have hc : ¬ c = '.' := fun hc => h (hc ▸ List.mem_cons_self c rest)
    simp only [List.cons_append, splitOnDot, if_neg hc, List.append_eq,
      ih (fun hm => h (List.mem_cons_of_mem c hm))]

theorem toList_hash_record (l : List Char) (s : String) :
    (String.mk l ++ "." ++ s).toList = l ++ '.' :: s.toList := by
  simp [String.toList]

/-- Verification of any record of the shape derivedKeyHex.salt reduces
to the constant-time comparison of the stored derived key with the
freshly derived one. -/
theorem comparePasswords_record (kdf : String → String → List Nat)
    (supplied salt : String) (dk : List Nat) (hdot : '.' ∉ salt.toList)
    (hb : ∀ b ∈ dk, b < 256) :
    comparePasswords kdf supplied (String.mk (hexEncodeL dk) ++ "." ++ salt) =
      timingSafeEqual dk (kdf supplied salt) := by
  unfold comparePasswords
  rw [toList_hash_record, splitOnDot_append_dot _ _ (dot_not_mem_hexEncodeL _),
    splitOnDot_no_dot _ hdot]
  simp only [hexDecodeL_hexEncodeL _ hb]
  rfl

/-- Verification of a record produced by hashPassword reduces to the
constant-time comparison of the stored derived key with the freshly
derived one. -/
theorem comparePasswords_hashPassword (kdf : String → String → List Nat)
    (supplied p salt : String) (hdot : '.' ∉ salt.toList)
    (hb : ∀ b ∈ kdf p salt, b < 256) :
    comparePasswords kdf supplied (hashPassword kdf salt p) =
      timingSafeEqual (kdf p salt) (kdf supplied salt) :=
  comparePasswords_record kdf supplied salt (kdf p salt) hdot hb

theorem mem_le_foldr_max (n : Nat) (l : List Nat) (h : n ∈ l) : n ≤ l.foldr max 0 := by
  induction l with
  | nil => cases h
  | cons a t ih =>
    rcases List.mem_cons.mp h with rfl | h
    · exact le_max_left _ _
    · exact le_trans (ih h) (le_max_right _ _)

theorem mem_id_lt_nextId (store : List User) (u : User) (h : u ∈ store) :
    u.id < nextId store := by
  have h1 : u.id ∈ store.map (fun v => v.id) := List.mem_map_of_mem _ h
  have h2 := mem_le_foldr_max _ _ h1
  unfold nextId
  omega

/-- A freshly inserted row is found by its serial id: no pre-existing
row can carry the new id. -/
theorem getUser_append_fresh (store : List User) (u : User) (hid : u.id = nextId store) :
    getUser (store ++ [u]) u.id = some u := by
  unfold getUser
  rw [List.find?_append]
  have hnone : store.find? (fun v => v.id == u.id) = none := by
    rw [List.find?_eq_none]
    intro v hv hpv
    have := mem_id_lt_nextId store v hv
    have hpv' : v.id = u.id := by simpa using hpv
    omega
  rw [hnone]
  simp [List.find?]

/-- After the single updatePassword UPDATE, the touched row carries the
new hash and both reset columns are NULL. -/
theorem updatePassword_touched (store : List User) (uid : Nat) (hashed : String) :
    ∀ v ∈ updatePassword store uid hashed, v.id = uid →
      v.password = hashed ∧ v.resetToken = none ∧ v.resetTokenExpiry = none := by
  intro v hv hvid
  unfold updatePassword at hv
  rcases List.mem_map.mp hv with ⟨w, _, hw⟩
  by_cases hcase : w.id = uid
  · rw [if_pos hcase] at hw
    rw [← hw]
    exact ⟨rfl, rfl, rfl⟩
  · rw [if_neg hcase] at hw
    exact absurd (hw ▸ hvid) hcase

/-- After the single updatePassword UPDATE on the sole holder of a
token, no row holds that token any more. -/
theorem getUserByResetToken_after_update (store : List User) (uid : Nat)
    (hashed t : String)
    (huniq : ∀ v ∈ store, v.resetToken = some t → v.id = uid) :
    getUserByResetToken (updatePassword store uid hashed) t = none := by
  unfold getUserByResetToken updatePassword
  rw [List.find?_eq_none]
  intro v hv hpv
  rcases List.mem_map.mp hv with ⟨w, hwmem, hw⟩
  have hvtok : v.resetToken = some t := by
    simpa using hpv
  by_cases hcase : w.id = uid
  · rw [if_pos hcase] at hw
    rw [← hw] at hvtok
    simp at hvtok
  · rw [if_neg hcase] at hw
    exact hcase (huniq w hwmem (hw ▸ hvtok))

theorem getUserByResetToken_mem (store : List User) (t : String) (u : User)
    (h : getUserByResetToken store t = some u) :
    u ∈ store ∧ u.resetToken = some t := by
  unfold getUserByResetToken at h
  refine ⟨List.mem_of_find?_eq_some h, ?_⟩
  have := List.find?_some h
  simpa using this

/-- Claim C2: for every plaintext p, comparePasswords(p, hashPassword(p))
returns true; and for every pair of distinct plaintexts p1 and p2 whose
derived keys at the salt differ — the event the spec calls overwhelming
probability over the random salt — comparePasswords(p1, hashPassword(p2))
returns false. The derived keys are byte lists of the fixed scrypt output
length, so the two keys have equal length. -/
theorem verify_hash_roundtrip (kdf : String → String → List Nat) (salt p1 p2 : String)
    (hdot : '.' ∉ salt.toList)
    (hb1 : ∀ b ∈ kdf p1 salt, b < 256)
    (hb2 : ∀ b ∈ kdf p2 salt, b < 256)
    (hlen : (kdf p2 salt).length = (kdf p1 salt).length)
    (_hne : p1 ≠ p2)
    (hkdf : kdf p1 salt ≠ kdf p2 salt) :
    comparePasswords kdf p1 (hashPassword kdf salt p1) = .ok true ∧
    comparePasswords kdf p1 (hashPassword kdf salt p2) = .ok false := by
  constructor
  · rw [comparePasswords_hashPassword kdf p1 p1 salt hdot hb1]
    unfold timingSafeEqual
    simp
  · rw [comparePasswords_hashPassword kdf p1 p2 salt hdot hb2]
    unfold timingSafeEqual
    rw [if_pos hlen]
    simp only [Except.ok.injEq]
    exact beq_eq_false_iff_ne.mpr (Ne.symm hkdf)

/-- Witness for C2 at concrete inputs. -/
theorem verify_hash_roundtrip_witness :
    comparePasswords demoKdf "aa" (hashPassword demoKdf "xy" "aa") = .ok true ∧
    comparePasswords demoKdf "aa" (hashPassword demoKdf "xy" "ab") = .ok false :=
  verify_hash_roundtrip demoKdf "xy" "aa" "ab" (by decide) (by decide) (by decide)
    (by decide) (by decide) (by decide)

/-- Claim C7 counterexample: comparePasswords throws rather than
returning false on malformed records. A record with no dot separator
makes scrypt throw on an undefined salt, and a record whose derived-key
part decodes to a length other than the scrypt output length makes
timingSafeEqual throw a RangeError. -/
theorem comparePasswords_throws_counterexample :
    comparePasswords demoKdf "pw" "deadbeef" = .error scryptSaltTypeError ∧
    comparePasswords demoKdf "pw" "ab.cd" =
      .error "RangeError: Input buffers must have the same byte length" :=
  ⟨rfl, rfl⟩

/-- Claim C7 amended: for every supplied plaintext and every well-formed
record — a derived-key hex part and a dot-free salt part separated by a
dot, with the derived key decoding to the kdf output length —
comparePasswords returns a boolean without throwing (false exactly on a
key mismatch); but for a record with no dot separator it throws the
scrypt salt TypeError instead of returning false. -/
theorem comparePasswords_wellformed_total (kdf : String → String → List Nat)
    (supplied salt : String) (dk : List Nat)
    (hdot : '.' ∉ salt.toList) (hb : ∀ b ∈ dk, b < 256)
    (hlen : dk.length = (kdf supplied salt).length) :
    comparePasswords kdf supplied (String.mk (hexEncodeL dk) ++ "." ++ salt) =
      .ok (dk == kdf supplied salt) ∧
    ∀ stored : String, '.' ∉ stored.toList →
      comparePasswords kdf supplied stored = .error scryptSaltTypeError := by
  constructor
  · rw [comparePasswords_record kdf supplied salt dk hdot hb]
    unfold timingSafeEqual
    rw [if_pos hlen]
  · intro stored hnodot
    unfold comparePasswords
    rw [splitOnDot_no_dot _ hnodot]

/-- Witness for the amended C7 at concrete inputs. -/
theorem comparePasswords_wellformed_total_witness :
    comparePasswords demoKdf "pw" (String.mk (hexEncodeL [1, 2, 3, 4]) ++ "." ++ "xy") =
      .ok ([1, 2, 3, 4] == demoKdf "pw" "xy") ∧
    comparePasswords demoKdf "pw" "abcdef" = .error scryptSaltTypeError :=
  ⟨(comparePasswords_wellformed_total demoKdf "pw" "xy" [1, 2, 3, 4]
      (by decide) (by decide) (by decide)).1,
   (comparePasswords_wellformed_total demoKdf "pw" "xy" [1, 2, 3, 4]
      (by decide) (by decide) (by decide)).2 "abcdef" (by decide)⟩

/-- Claim C1: for a user holding a currently valid reset token, a first
confirm with that token and a valid new password succeeds; the store
transition is the single updatePassword UPDATE that both replaces the
password hash and clears the reset-token columns — one transition, so
there is no intermediate state with only one of the two changes; in the
resulting store no row holds the token any more, and a second confirm
with the same token (any valid new password, any later time, in
particular within the original ttl) fails with the generic AuthFailure
response. The uniqueness hypothesis states that the presented token is
held by that user alone, which the flow guarantees because tokens are
32 fresh random bytes stored on a single row. -/
theorem confirm_reset_single_use (kdf : String → String → List Nat)
    (salt1 salt2 : String) (store : List User) (t pw pw2 : String)
    (now now2 E : Nat) (u : User)
    (hfind : getUserByResetToken store t = some u)
    (hexp : u.resetTokenExpiry = some E)
    (hvalid : now < E)
    (hpw : validPassword pw = true)
    (hpw2 : validPassword pw2 = true)
    (huniq : ∀ v ∈ store, v.resetToken = some t → v.id = u.id) :
    confirmReset kdf salt1 store t pw now =
      (.ok200 "Password updated successfully",
        updatePassword store u.id (hashPassword kdf salt1 pw)) ∧
    (∀ v ∈ updatePassword store u.id (hashPassword kdf salt1 pw), v.id = u.id →
        v.password = hashPassword kdf salt1 pw ∧ v.resetToken = none ∧
          v.resetTokenExpiry = none) ∧
    getUserByResetToken (updatePassword store u.id (hashPassword kdf salt1 pw)) t = none ∧
    confirmReset kdf salt2 (updatePassword store u.id (hashPassword kdf salt1 pw)) t pw2
        now2 =
      (.bad400 "Invalid or expired reset token",
        updatePassword store u.id (hashPassword kdf salt1 pw)) := by
  have hnone := getUserByResetToken_after_update store u.id (hashPassword kdf salt1 pw) t huniq
  refine ⟨?_, updatePassword_touched _ _ _, hnone, ?_⟩
  · simp [confirmReset, hpw, hfind, hexp, Nat.lt_asymm hvalid]
  · simp [confirmReset, hpw2, hnone]

/-- Witness for C1 at concrete inputs: the sample store holds the token
with expiry 1000 and the confirm happens at time 999. -/
theorem confirm_reset_single_use_witness :
    confirmReset demoKdf "s1" [sampleUser] "tok" "Aa1!aaaa" 999 =
      (.ok200 "Password updated successfully",
        updatePassword [sampleUser] 1 (hashPassword demoKdf "s1" "Aa1!aaaa")) ∧
    (∀ v ∈ updatePassword [sampleUser] 1 (hashPassword demoKdf "s1" "Aa1!aaaa"), v.id = 1 →
        v.password = hashPassword demoKdf "s1" "Aa1!aaaa" ∧ v.resetToken = none ∧
          v.resetTokenExpiry = none) ∧
    getUserByResetToken (updatePassword [sampleUser] 1 (hashPassword demoKdf "s1" "Aa1!aaaa"))
        "tok" = none ∧
    confirmReset demoKdf "s2"
        (updatePassword [sampleUser] 1 (hashPassword demoKdf "s1" "Aa1!aaaa"))
        "tok" "Bb2@bbbb" 5 =
      (.bad400 "Invalid or expired reset token",
        updatePassword [sampleUser] 1 (hashPassword demoKdf "s1" "Aa1!aaaa")) :=
  confirm_reset_single_use demoKdf "s1" "s2" [sampleUser] "tok" "Aa1!aaaa" "Bb2@bbbb"
    999 5 1000 sampleUser (by decide) (by decide) (by decide) (by decide) (by decide)
    (by decide)

/-- Claim C3 counterexample: the handler rejects only when the stored
expiry is strictly before now, so a token with expiry timestamp 1000 is
still accepted by a confirm at exactly now = 1000, whereas the claim
demands rejection at every now greater than or equal to the expiry. -/
theorem expiry_boundary_counterexample :
    sampleUser.resetTokenExpiry = some 1000 ∧
    (confirmReset demoKdf "s1" [sampleUser] "tok" "Aa1!aaaa" 1000).1 =
      .ok200 "Password updated successfully" :=
  ⟨rfl, rfl⟩

/-- Claim C3 amended: the found token is rejected as expired exactly
when now is strictly greater than its expiry E; at now = E, and at any
earlier time, the token still passes the expiry check. -/
theorem expiry_check_amended (kdf : String → String → List Nat) (salt : String)
    (store : List User) (t pw : String) (now E : Nat) (u : User)
    (hfind : getUserByResetToken store t = some u)
    (hexp : u.resetTokenExpiry = some E)
    (hpw : validPassword pw = true) :
    ((confirmReset kdf salt store t pw now).1 = .bad400 "Reset token has expired" ↔
      E < now) := by
  by_cases h : E < now
  · simp [confirmReset, hpw, hfind, hexp, h]
  · simp [confirmReset, hpw, hfind, hexp, h]

/-- Witness for the amended C3 at concrete inputs. -/
theorem expiry_check_amended_witness :
    ((confirmReset demoKdf "s1" [sampleUser] "tok" "Aa1!aaaa" 1001).1 =
      .bad400 "Reset token has expired" ↔ (1000 : Nat) < 1001) :=
  expiry_check_amended demoKdf "s1" [sampleUser] "tok" "Aa1!aaaa" 1001 1000 sampleUser
    (by decide) (by decide) (by decide)

/-- Claim C8 counterexample: the two confirm failure branches answer
with different messages, so a token matching no row and an expired
token are distinguishable, contrary to the claim. -/
theorem confirm_failure_messages_counterexample :
    (confirmReset demoKdf "s1" [sampleUser] "nope" "Aa1!aaaa" 5000).1 =
      .bad400 "Invalid or expired reset token" ∧
    (confirmReset demoKdf "s1" [sampleUser] "tok" "Aa1!aaaa" 5000).1 =
      .bad400 "Reset token has expired" ∧
    ConfirmResponse.bad400 "Invalid or expired reset token" ≠
      ConfirmResponse.bad400 "Reset token has expired" :=
  ⟨rfl, rfl, by decide⟩

/-- Claim C8 amended: both failures are 400 responses that leave the
store untouched, but with two distinct fixed messages: a token held by
no row answers "Invalid or expired reset token", while a held but
expired token answers "Reset token has expired". -/
theorem confirm_failure_messages_amended (kdf : String → String → List Nat)
    (salt : String) (store : List User) (t pw : String) (now : Nat)
    (hpw : validPassword pw = true) :
    (getUserByResetToken store t = none →
      confirmReset kdf salt store t pw now =
        (.bad400 "Invalid or expired reset token", store)) ∧
    (∀ u E, getUserByResetToken store t = some u → u.resetTokenExpiry = some E →
      E < now →
      confirmReset kdf salt store t pw now = (.bad400 "Reset token has expired", store)) := by
  constructor
  · intro hnone
    simp [confirmReset, hpw, hnone]
  · intro u E hfind hexp hlt
    simp [confirmReset, hpw, hfind, hexp, hlt]

/-- Witness for the amended C8 at concrete inputs. -/
theorem confirm_failure_messages_amended_witness :
    confirmReset demoKdf "s1" [sampleUser] "nope" "Aa1!aaaa" 5000 =
      (.bad400 "Invalid or expired reset token", [sampleUser]) ∧
    confirmReset demoKdf "s1" [sampleUser] "tok" "Aa1!aaaa" 5000 =
      (.bad400 "Reset token has expired", [sampleUser]) :=
  ⟨(confirm_failure_messages_amended demoKdf "s1" [sampleUser] "nope" "Aa1!aaaa" 5000
      (by decide)).1 (by decide),
   (confirm_failure_messages_amended demoKdf "s1" [sampleUser] "tok" "Aa1!aaaa" 5000
      (by decide)).2 sampleUser 1000 (by decide) (by decide) (by decide)⟩

/-- Claim C9 counterexample: the lookup is by the exact submitted email,
so the registered user of the sample store authenticates with the
lower-case spelling but not with an upper-case variant and the correct
password, contrary to the claim that letter case does not matter. -/
theorem email_case_counterexample :
    localAuthenticate demoKdf [sampleUser] "a@x.com" "Pw1!aaaa" = .success sampleUser ∧
    localAuthenticate demoKdf [sampleUser] "A@x.com" "Pw1!aaaa" =
      .failure "Invalid email or password" :=
  ⟨rfl, rfl⟩

/-- Claim C9 amended: local authentication looks the identity up by the
exact submitted email string with no case normalization — success is
only possible for a stored row whose email equals the submitted one —
and both the unknown-email case and the wrong-password case return the
same generic failure "Invalid email or password". -/
theorem local_auth_exact_and_generic (kdf : String → String → List Nat)
    (store : List User) (email pw : String) :
    (getUserByEmail store email = none →
      localAuthenticate kdf store email pw = .failure "Invalid email or password") ∧
    (∀ u, getUserByEmail store email = some u →
      comparePasswords kdf pw u.password = .ok false →
      localAuthenticate kdf store email pw = .failure "Invalid email or password") ∧
    (∀ u, localAuthenticate kdf store email pw = .success u →
      u ∈ store ∧ u.email = email) := by
  refine ⟨?_, ?_, ?_⟩
  · intro h
    simp [localAuthenticate, h]
  · intro u hfind hcmp
    simp [localAuthenticate, hfind, hcmp]
  · intro u hsucc
    unfold localAuthenticate at hsucc
    cases hfind : getUserByEmail store email with
    | none => simp [hfind] at hsucc
    | some v =>
      simp only [hfind] at hsucc
      cases hcmp : comparePasswords kdf pw v.password with
      | error e => simp [hcmp] at hsucc
      | ok b =>
        cases b with
        | false => simp [hcmp] at hsucc
        | true =>
          simp only [hcmp] at hsucc
          obtain rfl : v = u := by simpa using hsucc
          have hm := List.mem_of_find?_eq_some hfind
          have hp := List.find?_some hfind
          exact ⟨hm, by simpa using hp⟩

/-- Witness for the amended C9 at concrete inputs. -/
theorem local_auth_exact_and_generic_witness :
    localAuthenticate demoKdf [sampleUser] "b@x.com" "Pw1!aaaa" =
      .failure "Invalid email or password" ∧
    localAuthenticate demoKdf [sampleUser] "a@x.com" "Wrong1!a" =
      .failure "Invalid email or password" :=
  ⟨(local_auth_exact_and_generic demoKdf [sampleUser] "b@x.com" "Pw1!aaaa").1 rfl,
   (local_auth_exact_and_generic demoKdf [sampleUser] "a@x.com" "Wrong1!a").2.1
     sampleUser rfl rfl⟩

/-- Claim C4 evaluated at the failing input: for a registered email the
forgot-password 200 body carries the debug reset link containing the
raw token, while for an unregistered email it does not — the two bodies
differ, and the registered one contains the token, contrary to the
claim of byte-identical, token-free responses. -/
theorem forgot_password_distinguishable :
    (forgotPassword [sampleUser] "a@x.com" "tok123" 0 "http" "localhost:5000").1 =
      { status := 200, message := forgotAck,
        debug := some "http://localhost:5000/auth/reset-password?token=tok123" } ∧
    (forgotPassword [sampleUser] "ghost@x.com" "tok123" 0 "http" "localhost:5000").1 =
      { status := 200, message := forgotAck, debug := none } ∧
    (forgotPassword [sampleUser] "a@x.com" "tok123" 0 "http" "localhost:5000").1 ≠
      (forgotPassword [sampleUser] "ghost@x.com" "tok123" 0 "http" "localhost:5000").1 := by
  refine ⟨rfl, rfl, ?_⟩
  decide

/-- Row created by the sample successful registration. -/
def regRow : User :=
  { id := 1, email := "a@x.com", password := hashPassword demoKdf "xy" "Aa1!aaaa",
    createdAt := "t0", isGoogleUser := false, resetToken := none, resetTokenExpiry := none }

/-- Claim C5 evaluated at the failing input: the 201 register body is
the full stored row with the password-hash column present and equal to
the stored hash, and the current-user endpoint then returns the same
full row — the hash record is returned to the client. -/
theorem register_body_contains_hash :
    (register demoKdf "xy" "t0" [] "a@x.com" "Aa1!aaaa").1 = .created201 regRow ∧
    regRow.password = hashPassword demoKdf "xy" "Aa1!aaaa" ∧
    currentUser (register demoKdf "xy" "t0" [] "a@x.com" "Aa1!aaaa").2.1 (some 1) =
      .ok200 regRow :=
  ⟨rfl, rfl, rfl⟩

/-- Row created by the sample first federated login. -/
def googleRow : User :=
  { id := 1, email := "new@x.com", password := hashPassword demoKdf "xy" "randpw",
    createdAt := "t0", isGoogleUser := false, resetToken := none, resetTokenExpiry := none }

/-- Claim C6 evaluated at the failing input: a federated login for a
brand-new email creates exactly one identity whose password is the hash
of the random discarded plaintext, and a second federated login with
the same email returns that same identity with no duplicate — but the
created row has isGoogleUser false, because createUser hardcodes the
flag, contrary to the claim that the federated-only flag is true. -/
theorem google_login_flag_false :
    googleVerify demoKdf "xy" "randpw" "t0" [] (some "new@x.com") =
      .ok (googleRow, [googleRow]) ∧
    googleRow.isGoogleUser = false ∧
    googleRow.password = hashPassword demoKdf "xy" "randpw" ∧
    googleVerify demoKdf "zz" "other" "t1" [googleRow] (some "new@x.com") =
      .ok (googleRow, [googleRow]) :=
  ⟨rfl, rfl, rfl, rfl⟩

/-- The row inserted by createUser is found again by its own id in the
resulting table. -/
theorem getUser_createUser (store : List User) (iu : InsertUser) (createdAt : String) :
    getUser (createUser store iu createdAt).2 (createUser store iu createdAt).1.id =
      some (createUser store iu createdAt).1 :=
  getUser_append_fresh store _ rfl

/-- Claim C10: a successful register — one answering 201 with the new
identity — has already established a session holding exactly the new
user id, and a current-user request against the resulting store with
that session answers 200 with that same identity, not 401. -/
theorem register_establishes_session (kdf : String → String → List Nat)
    (salt createdAt : String) (store : List User) (email pw : String)
    (u : User) (store2 : List User) (sess : Option Nat)
    (hpw : validPassword pw = true)
    (hnew : getUserByEmail store email = none)
    (hreg : register kdf salt createdAt store email pw = (.created201 u, store2, sess)) :
    sess = some u.id ∧ currentUser store2 sess = .ok200 u := by
  simp only [register, hpw, Bool.not_true, Bool.false_eq_true, if_false, hnew,
    Prod.mk.injEq, RegisterResponse.created201.injEq] at hreg
  obtain ⟨hu, hst, hsess⟩ := hreg
  subst hu
  subst hst
  subst hsess
  refine ⟨rfl, ?_⟩
  unfold currentUser
  simp only [getUser_createUser]

/-- Witness for C10 at concrete inputs. -/
theorem register_establishes_session_witness :
    (some 1 : Option Nat) = some regRow.id ∧
    currentUser [regRow] (some 1) = .ok200 regRow :=
  register_establishes_session demoKdf "xy" "t0" [] "a@x.com" "Aa1!aaaa" regRow [regRow]
    (some 1) (by decide) (by decide) rfl

end Auth
